import Mathlib

/-!
Verification of the hybrid-transpiler analysis-and-generation pipeline.

The C++ sources are shallowly embedded over `List Char` (the character
sequence of a `std::string`).  The ECMAScript regular expressions used by
the analyzers are embedded as data (`Regex`) together with a backtracking
matcher (`mfirst`) that mirrors the ECMAScript leftmost, greedy,
priority-ordered semantics of `std::regex_search` / `std::regex_replace`
for the constructs those patterns use (literals, character classes,
greedy star/plus over a character class, greedy option, alternation and
numbered capture groups).
-/

set_option maxRecDepth 10000

namespace Hybrid

/-- Characters of a `std::string`. -/
abbrev Str := List Char

/-- Embedding of `std::string::find(pat) != npos`: `pat` occurs as a
contiguous substring of `s`. -/
def containsSub (pat : Str) : Str → Bool
  | [] => pat.isEmpty
  | c :: t => pat.isPrefixOf (c :: t) || containsSub pat t

/-- Trim the characters of `cs` from both ends of `s`; embedding of the
`find_first_not_of`/`find_last_not_of` + `substr` idiom used by the
analyzers (returns the empty string when every character is trimmed). -/
def trimWith (cs : Str) (s : Str) : Str :=
  ((s.dropWhile (fun c => cs.contains c)).reverse.dropWhile (fun c => cs.contains c)).reverse

/-- Index of the first occurrence of `c` in `s` (`std::string::find(c)`). -/
def findIdxCh (c : Char) (s : Str) : Option Nat :=
  if s.findIdx (fun x => x == c) < s.length then some (s.findIdx (fun x => x == c)) else none

/-- Index of the last occurrence of `c` in `s` (`std::string::rfind(c)`). -/
def rfindIdxCh (c : Char) (s : Str) : Option Nat :=
  match findIdxCh c s.reverse with
  | some j => some (s.length - 1 - j)
  | none => none

/-- Index of the last character satisfying `p` (`std::string::find_last_of`). -/
def findLastIdxP (p : Char → Bool) (s : Str) : Option Nat :=
  match s.reverse.findIdx? p with
  | some j => some (s.length - 1 - j)
  | none => none

/-! ### A small ECMAScript regex fragment

Exactly the constructs appearing in the analyzers' patterns.  `star` and
`plus` are restricted to single-character classes, which is all the
source patterns use (`\s*`, `\s+`, `\w+`, `[^x]*`, `[^x]+`). -/

inductive Regex where
  | eps
  | cls (p : Char → Bool)
  | str (l : Str)
  | seq (a b : Regex)
  | alt (a b : Regex)
  | opt (a : Regex)
  | star (p : Char → Bool)
  | plus (p : Char → Bool)
  | group (idx : Nat) (a : Regex)

/-- Concatenation of a list of regexes. -/
def rcat (l : List Regex) : Regex := l.foldr Regex.seq Regex.eps

/-- Captured groups of a match: pairs of group index and captured text. -/
abbrev Caps := List (Nat × Str)

/-- Text of group `i` (`match[i].str()`, empty when the group did not match). -/
def capStr (g : Caps) (i : Nat) : Str :=
  match g.find? (fun e => e.1 == i) with
  | some e => e.2
  | none => []

/-- Whether group `i` participated in the match (`match[i].matched`). -/
def capMatched (g : Caps) (i : Nat) : Bool :=
  (g.find? (fun e => e.1 == i)).isSome

/-- First `some` of a list of alternatives, in priority order. -/
def firstSome {α : Type} : List (Option α) → Option α
  | [] => none
  | o :: t =>
    match o with
    | some a => some a
    | none => firstSome t

/-- Length of the maximal prefix of `s` whose characters satisfy `p`. -/
def countWhile (p : Char → Bool) : Str → Nat
  | [] => 0
  | c :: t => if p c then countWhile p t + 1 else 0

/-- Backtracking matcher in continuation-passing style.  `mfirst r s k`
attempts to match `r` at the start of `s`; alternatives are tried in
ECMAScript priority order (greedy quantifiers longest-first, left
alternative first), and the continuation `k` receives the rest of the
input together with the captures produced by `r`. -/
def mfirst {α : Type} : Regex → Str → (Str → Caps → Option α) → Option α
  | .eps, s, k => k s []
  | .cls p, s, k =>
    match s with
    | [] => none
    | c :: t => if p c then k t [] else none
  | .str l, s, k => if l.isPrefixOf s then k (s.drop l.length) [] else none
  | .seq a b, s, k =>
    mfirst a s (fun s1 g1 => mfirst b s1 (fun s2 g2 => k s2 (g1 ++ g2)))
  | .alt a b, s, k =>
    match mfirst a s k with
    | some r => some r
    | none => mfirst b s k
  | .opt a, s, k =>
    match mfirst a s k with
    | some r => some r
    | none => k s []
  | .star p, s, k =>
    let run := countWhile p s
    firstSome ((List.range (run + 1)).map (fun i => k (s.drop (run - i)) []))
  | .plus p, s, k =>
    let run := countWhile p s
    if run = 0 then none
    else firstSome ((List.range run).map (fun i => k (s.drop (run - i)) []))
  | .group i a, s, k =>
    mfirst a s (fun s1 g1 => k s1 (g1 ++ [(i, s.take (s.length - s1.length))]))

/-- Embedding of `std::regex_search`: find the leftmost match of `re` in
`s`, returning the unmatched prefix, the captures, and the suffix after
the match (`match.suffix().first`). -/
def rsearch (re : Regex) : Str → Option (Str × Caps × Str)
  | [] =>
    match mfirst re [] (fun rest g => some (g, rest)) with
    | some (g, rest) => some ([], g, rest)
    | none => none
  | c :: t =>
    match mfirst re (c :: t) (fun rest g => some (g, rest)) with
    | some (g, rest) => some ([], g, rest)
    | none =>
      match rsearch re t with
      | some (pre, g, rest) => some (c :: pre, g, rest)
      | none => none

/-- Embedding of `std::regex_replace` (replace every match of `re` by
`repl`, scanning left to right).  The fuel bounds the number of
replacements; every pattern it is used with consumes at least one
character per match, so `s.length + 1` fuel is always enough. -/
def replaceAll : Nat → Regex → Str → Str → Str
  | 0, _, _, s => s
  | fuel + 1, re, repl, s =>
    match rsearch re s with
    | none => s
    | some (pre, _, rest) => pre ++ repl ++ replaceAll fuel re repl rest

/-- Captures of every match of `re` in `s`, left to right, each search
resuming at the suffix of the previous match — the embedding of the
`while (std::regex_search(...)) { ...; search_start = match.suffix().first; }`
loops of the analyzers.  Fuel as in `replaceAll`. -/
def allMatches : Nat → Regex → Str → List Caps
  | 0, _, _ => []
  | fuel + 1, re, s =>
    match rsearch re s with
    | none => []
    | some (_, g, rest) => g :: allMatches fuel re rest

/-- ECMAScript `\s` (the characters the analyzers' inputs can contain). -/
def isWsChar (c : Char) : Bool :=
  c == ' ' || c == '\t' || c == '\n' || c == '\r' || c.toNat == 11 || c.toNat == 12

/-- ECMAScript `\w`. -/
def isWordChar (c : Char) : Bool := c.isAlphanum || c == '_'

/-- Character class `[^c]`. -/
def notCh (c : Char) : Char → Bool := fun x => x != c

/-! ### IR data model (`include/ir.h`)

`TypeKind` is the enum of `ir.h` extended with the `Std*` kinds that the
container mapper and the thread analyzer match on (their enum cases are
pinned by those uses; the extended enum declaration itself is not among
the sources). -/

inductive TypeKind where
  | Void
  | Bool
  | Integer
  | Float
  | Pointer
  | Reference
  | Array
  | Struct
  | Class
  | Enum
  | Function
  | Template
  | StdVector
  | StdList
  | StdDeque
  | StdMap
  | StdUnorderedMap
  | StdSet
  | StdUnorderedSet
  | StdString
  | StdPair
  | StdOptional
  | StdThread
  | StdMutex
  | StdRecursiveMutex
  | StdSharedMutex
  | StdConditionVariable
  | StdAtomic
  | StdLockGuard
  | StdUniqueLock
  | StdSharedLock
deriving DecidableEq

/-- The `Type` node of `ir.h` (named `Ty` here since `Type` is a Lean
keyword): kind, name, constness/mutability flags, owned `element_type`
child, owned `template_args` children, and size information. -/
inductive Ty where
  | mk (kind : TypeKind) (name : Str) (is_const : Bool) (is_mutable : Bool)
       (element_type : Option Ty) (template_args : List Ty)
       (size_bytes : Nat) (alignment : Nat)

def Ty.kind : Ty → TypeKind
  | .mk k _ _ _ _ _ _ _ => k

def Ty.name : Ty → Str
  | .mk _ n _ _ _ _ _ _ => n

def Ty.is_const : Ty → Bool
  | .mk _ _ c _ _ _ _ _ => c

def Ty.element_type : Ty → Option Ty
  | .mk _ _ _ _ e _ _ _ => e

def Ty.size_bytes : Ty → Nat
  | .mk _ _ _ _ _ _ s _ => s

def Ty.alignment : Ty → Nat
  | .mk _ _ _ _ _ _ _ a => a

/-- `Type(TypeKind k)` with the in-class default member initializers of
`ir.h` (`is_const = false`, `is_mutable = true`, no children,
`size_bytes = 0`, `alignment = 0`) and a name assigned afterwards. -/
def mkTy (k : TypeKind) (n : Str) : Ty := .mk k n false true none [] 0 0

/-! ### Type mapper (`src/parser/type_mapper.cpp`, `TypeMapper`) -/

namespace TypeMapper

/-- The `size_map` table of `TypeMapper::getSizeForType`. -/
def size_map : List (Str × Nat) :=
  [("void".data, 0), ("bool".data, 1), ("char".data, 1), ("short".data, 2),
   ("int".data, 4), ("long".data, 8), ("long long".data, 8),
   ("unsigned char".data, 1), ("unsigned short".data, 2), ("unsigned int".data, 4),
   ("unsigned long".data, 8), ("unsigned long long".data, 8),
   ("int8_t".data, 1), ("int16_t".data, 2), ("int32_t".data, 4), ("int64_t".data, 8),
   ("uint8_t".data, 1), ("uint16_t".data, 2), ("uint32_t".data, 4), ("uint64_t".data, 8),
   ("size_t".data, 8), ("float".data, 4), ("double".data, 8)]

/-- `TypeMapper::getSizeForType` (`0` for an unknown name). -/
def getSizeForType (type_name : Str) : Nat :=
  (size_map.lookup type_name).getD 0

/-- The `builtin_map` table of `TypeMapper::mapBuiltinType`. -/
def builtin_map : List (Str × TypeKind) :=
  [("void".data, .Void), ("bool".data, .Bool), ("char".data, .Integer), ("short".data, .Integer),
   ("int".data, .Integer), ("long".data, .Integer), ("long long".data, .Integer),
   ("unsigned char".data, .Integer), ("unsigned short".data, .Integer),
   ("unsigned int".data, .Integer), ("unsigned long".data, .Integer),
   ("unsigned long long".data, .Integer),
   ("int8_t".data, .Integer), ("int16_t".data, .Integer), ("int32_t".data, .Integer),
   ("int64_t".data, .Integer),
   ("uint8_t".data, .Integer), ("uint16_t".data, .Integer), ("uint32_t".data, .Integer),
   ("uint64_t".data, .Integer),
   ("size_t".data, .Integer), ("float".data, .Float), ("double".data, .Float)]

/-- `TypeMapper::mapBuiltinType`: a fresh `Type` of the kind found in the
table, named by the input, with `size_bytes` from `getSizeForType` and
`alignment = size_bytes`; `nullptr` (here `none`) for unknown names. -/
def mapBuiltinType (cpp_type : Str) : Option Ty :=
  match builtin_map.lookup cpp_type with
  | some k =>
    some (.mk k cpp_type false true none [] (getSizeForType cpp_type) (getSizeForType cpp_type))
  | none => none

/-- The keys of the builtin mapping table. -/
def builtinNames : List Str := builtin_map.map (fun e => e.1)

end TypeMapper

/-- Modelled from the spec: the documented platform-independent size of
each builtin type name — the width its name denotes for the fixed-width
aliases (`intN_t`/`uintN_t` are `N/8` bytes), the conventional C sizes
for the plain integer names (`char` 1, `short` 2, `int` 4, `long` and
`long long` 8, `bool` 1, `void` 0), the 64-bit pointer width for
`size_t`, and the two IEEE floating widths (`float` 4, `double` 8).
This is the specification-side table the code's `size_map` is compared
against. -/
def documentedSize (n : Str) : Nat :=
  if n = "void".data then 0
  else if n = "bool".data then 1
  else if n = "char".data then 1 else if n = "unsigned char".data then 1
  else if n = "short".data then 2 else if n = "unsigned short".data then 2
  else if n = "int".data then 4 else if n = "unsigned int".data then 4
  else if n = "long".data then 8 else if n = "unsigned long".data then 8
  else if n = "long long".data then 8 else if n = "unsigned long long".data then 8
  else if n = "int8_t".data then 1 else if n = "uint8_t".data then 1
  else if n = "int16_t".data then 2 else if n = "uint16_t".data then 2
  else if n = "int32_t".data then 4 else if n = "uint32_t".data then 4
  else if n = "int64_t".data then 8 else if n = "uint64_t".data then 8
  else if n = "size_t".data then 8
  else if n = "float".data then 4 else if n = "double".data then 8
  else 0

/-! ### Memory pattern analyzer (`MemoryPatternAnalyzer`) -/

inductive OwnershipPattern where
  | UniqueOwnership
  | SharedOwnership
  | BorrowedReference
  | MutableBorrow
  | RawPointer
  | ValueSemantics
deriving DecidableEq

namespace MemoryPatternAnalyzer

/-- `MemoryPatternAnalyzer::analyzePointerPattern`.  The argument is the
`shared_ptr<Type>` of the source (`none` is the null pointer, classified
as `ValueSemantics` by the initial guard). -/
def analyzePointerPattern (type? : Option Ty) : OwnershipPattern :=
  match type? with
  | none => .ValueSemantics
  | some t =>
    if t.kind = .Pointer then
      if containsSub "unique_ptr".data t.name then .UniqueOwnership
      else if containsSub "shared_ptr".data t.name then .SharedOwnership
      else .RawPointer
    else if t.kind = .Reference then
      if t.is_const then .BorrowedReference else .MutableBorrow
    else .ValueSemantics

/-- `MemoryPatternAnalyzer::getRustEquivalent`. -/
def getRustEquivalent (pattern : OwnershipPattern) (inner_type : Str) : Str :=
  match pattern with
  | .UniqueOwnership => "Box<".data ++ inner_type ++ ">".data
  | .SharedOwnership => "Rc<".data ++ inner_type ++ ">".data
  | .BorrowedReference => "&".data ++ inner_type
  | .MutableBorrow => "&mut ".data ++ inner_type
  | .RawPointer => "*const ".data ++ inner_type
  | .ValueSemantics => inner_type

end MemoryPatternAnalyzer

/-! ### STL container mapper (`STLContainerMapper`), template-argument
extraction -/

namespace STLContainerMapper

/-- The whitespace set of `STLContainerMapper::trim`. -/
def trimSet : Str := " \t\n\r".data

/-- `STLContainerMapper::trim`. -/
def trim (s : Str) : Str := trimWith trimSet s

/-- The `start`/`end` computation of `STLContainerMapper::extractTemplateArgs`:
the first `<`, the last `>`, and the enclosed argument text
(`type_str.substr(start + 1, end - start - 1)`); `none` when either
bracket is missing or `start >= end`, in which case no arguments are
extracted. -/
def outerArgsStr (type_str : Str) : Option Str :=
  match findIdxCh '<' type_str, rfindIdxCh '>' type_str with
  | some st, some en =>
    if st < en then some ((type_str.drop (st + 1)).take (en - st - 1)) else none
  | some _, none => none
  | none, _ => none

/-- The character loop of `extractTemplateArgs`: split on commas at angle
bracket nesting depth 0 (depth is a C++ `int` and may go negative),
trimming each piece and dropping the ones that trim to nothing; the
remainder after the last comma is pushed at the end. -/
def extractLoop : Str → Str → Int → List Str
  | [], cur, _ =>
    let arg := trim cur
    if arg.isEmpty then [] else [arg]
  | c :: t, cur, depth =>
    if c = '<' then extractLoop t (cur ++ [c]) (depth + 1)
    else if c = '>' then extractLoop t (cur ++ [c]) (depth - 1)
    else if c = ',' ∧ depth = 0 then
      (let arg := trim cur
       if arg.isEmpty then [] else [arg]) ++ extractLoop t [] depth
    else extractLoop t (cur ++ [c]) depth

/-- `STLContainerMapper::extractTemplateArgs`. -/
def extractTemplateArgs (type_str : Str) : List Str :=
  match outerArgsStr type_str with
  | none => []
  | some inner => extractLoop inner [] 0

end STLContainerMapper

/-- Specification-side definition for C4: the list of top-level
comma-separated segments of a template-argument text, tracking the same
angle-bracket nesting depth as the source loop but keeping every
segment (no trimming, no dropping).  Its length is the number N of
arguments separated by commas at nesting depth 0. -/
def splitTopLevel : Str → Int → List Str
  | [], _ => [[]]
  | c :: t, depth =>
    if c = '<' then consFirst c (splitTopLevel t (depth + 1))
    else if c = '>' then consFirst c (splitTopLevel t (depth - 1))
    else if c = ',' ∧ depth = 0 then [] :: splitTopLevel t depth
    else consFirst c (splitTopLevel t depth)
where
  consFirst (c : Char) : List Str → List Str
    | [] => [[c]]
    | h :: t => (c :: h) :: t

/-! ### Analysis annotation records

These records are the analysis annotations attached to `Function` and
`ClassDecl`; their field names are pinned by the analyzer code that
writes and reads them.  Default values (annotations start empty, a
freshly recorded thread is joinable and not detached) are modelled from
the spec's lifecycle: annotations are populated only by the analyzer
passes. -/

/-- One catch clause of a detected try/catch block:
`(exception_type, bound variable, handler body)`. -/
structure CatchClause where
  exception_type : Str := []
  exception_var : Str := []
  handler_body : Str := []
deriving DecidableEq

/-- A detected try/catch region. -/
structure TryCatchBlock where
  try_body : Str := []
  catch_clauses : List CatchClause := []
deriving DecidableEq

/-- The exception specification attached to a function. -/
structure ExceptionSpec where
  can_throw : Bool := false
  is_noexcept : Bool := false
deriving DecidableEq

/-- A detected thread-spawn site (`ThreadInfo`). -/
structure ThreadInfo where
  thread_var_name : Str := []
  function_name : Str := []
  arguments : List Str := []
  detached : Bool := false
  joinable : Bool := true
deriving DecidableEq

inductive LockKind where
  | LockGuard
  | UniqueLock
  | SharedLock
deriving DecidableEq

/-- A detected lock scope (`LockInfo`). -/
structure LockInfo where
  type : LockKind
  lock_var_name : Str := []
  mutex_name : Str := []
deriving DecidableEq

/-- A detected atomic variable and its operation call sites (`AtomicInfo`). -/
structure AtomicInfo where
  atomic_var_name : Str := []
  value_type : Option Ty := none
  operations : List Str := []

/-- A detected condition variable (`ConditionVariableInfo`). -/
structure ConditionVariableInfo where
  cv_var_name : Str := []
  wait_conditions : List Str := []
deriving DecidableEq

inductive MutexKind where
  | Mutex
  | RecursiveMutex
  | SharedMutex
deriving DecidableEq

/-- A mutex-like class member (`MutexInfo`). -/
structure MutexInfo where
  type : MutexKind
  mutex_var_name : Str := []
deriving DecidableEq

/-! ### `Variable`, `Parameter`, `Function`, `ClassDecl` (`ir.h`) -/

/-- `Variable` of `ir.h`.  The `type` field is the `shared_ptr<Type>` of
the source, modelled as a present `Ty` (the analyzers dereference it
unconditionally). -/
structure Variable where
  name : Str := []
  type : Ty
  is_static : Bool := false
  is_const : Bool := false
  initializer : Str := []

/-- `Parameter` of `ir.h`. -/
structure Parameter where
  name : Str := []
  type : Option Ty := none
  has_default : Bool := false
  default_value : Str := []

/-- `Function` of `ir.h` (named `Func` here to avoid Lean's `Function`
namespace), together with the analysis annotations the analyzers attach. -/
structure Func where
  name : Str := []
  return_type : Option Ty := none
  parameters : List Parameter := []
  body : Str := []
  is_const : Bool := false
  is_static : Bool := false
  is_virtual : Bool := false
  is_pure_virtual : Bool := false
  is_constructor : Bool := false
  is_destructor : Bool := false
  moved_params : List Str := []
  borrowed_params : List Str := []
  try_catch_blocks : List TryCatchBlock := []
  may_throw : Bool := false
  exception_spec : ExceptionSpec := {}
  threads_created : List ThreadInfo := []
  lock_scopes : List LockInfo := []
  atomic_operations : List AtomicInfo := []
  condition_variables : List ConditionVariableInfo := []
  uses_threading : Bool := false

inductive AccessLevel where
  | Public
  | Protected
  | Private
deriving DecidableEq

/-- `ClassDecl::AccessSection` of `ir.h`. -/
structure AccessSection where
  level : AccessLevel
  members : List Str := []

/-- `ClassDecl` of `ir.h`, with the synchronization inventory the thread
analyzer attaches (`mutexes`, `atomic_fields`, `thread_safe`). -/
structure ClassDecl where
  name : Str := []
  is_struct : Bool := false
  fields : List Variable := []
  methods : List Func := []
  base_classes : List Str := []
  is_template : Bool := false
  template_params : List Str := []
  access_sections : List AccessSection := []
  mutexes : List MutexInfo := []
  atomic_fields : List AtomicInfo := []
  thread_safe : Bool := false

/-! ### Exception analyzer (`src/analyzer/exception_analyzer.cpp`) -/

namespace ExceptionAnalyzer

/-- The try/catch pattern of `detectTryCatchBlocks`:
`try\s*\{([^}]*)\}\s*catch\s*\(([^)]+)\)\s*\{([^}]*)\}`. -/
def tryCatchRe : Regex :=
  rcat [.str "try".data, .star isWsChar, .str "\x7b".data,
        .group 1 (.star (notCh '\x7d')), .str "\x7d".data, .star isWsChar,
        .str "catch".data, .star isWsChar, .str "(".data,
        .group 2 (.plus (notCh ')')), .str ")".data, .star isWsChar,
        .str "\x7b".data, .group 3 (.star (notCh '\x7d')), .str "\x7d".data]

/-- The replacement pattern `\s*const\s*` of `parseCatchParameter`. -/
def constRe : Regex := rcat [.star isWsChar, .str "const".data, .star isWsChar]

/-- The replacement pattern `\s*&\s*` of `parseCatchParameter`. -/
def ampRe : Regex := rcat [.star isWsChar, .str "&".data, .star isWsChar]

/-- The replacement pattern `\s+` of `parseCatchParameter`. -/
def wsRe : Regex := .plus isWsChar

/-- The trim set `" \t\n"` used by `parseCatchParameter`. -/
def catchTrimSet : Str := " \t\n".data

/-- `ExceptionAnalyzer::parseCatchParameter`: a literal `...` parameter is
the catch-all, recorded with type `"..."` and no bound name; otherwise
`const` and `&` are stripped, whitespace is collapsed, and the cleaned
text is split at its last space into `(type, variable)` — when no space
remains the whole text is the type and the variable defaults to `"e"`;
both parts are trimmed. -/
def parseCatchParameter (param : Str) : Str × Str :=
  if param = "...".data then ("...".data, [])
  else
    let c1 := replaceAll (param.length + 1) constRe " ".data param
    let c2 := replaceAll (c1.length + 1) ampRe " ".data c1
    let c3 := replaceAll (c2.length + 1) wsRe " ".data c2
    match findLastIdxP (fun c => c == ' ') c3 with
    | some i =>
      (trimWith catchTrimSet (c3.take i), trimWith catchTrimSet (c3.drop (i + 1)))
    | none =>
      (trimWith catchTrimSet c3, trimWith catchTrimSet "e".data)

/-- Build the `TryCatchBlock` recorded for one regex match of
`tryCatchRe` (protected body, single parsed catch clause, handler). -/
def mkBlock (g : Caps) : TryCatchBlock :=
  let parsed := parseCatchParameter (capStr g 2)
  { try_body := capStr g 1,
    catch_clauses := [{ exception_type := parsed.1, exception_var := parsed.2,
                        handler_body := capStr g 3 }] }

/-- `ExceptionAnalyzer::detectTryCatchBlocks` as a function of the body:
the list of blocks appended to `func.try_catch_blocks`, one per
successive `regex_search` restarting at each match's suffix. -/
def detectTryCatchBlocks (body : Str) : List TryCatchBlock :=
  (allMatches (body.length + 1) tryCatchRe body).map mkBlock

/-- The `throw\s+` pattern of `detectThrowStatements`. -/
def throwRe : Regex := rcat [.str "throw".data, .plus isWsChar]

/-- `ExceptionAnalyzer::detectThrowStatements` condition: `regex_search`
of `throw\s+` over the body. -/
def hasThrowWs (body : Str) : Bool := (rsearch throwRe body).isSome

/-- `ExceptionAnalyzer::containsThrowStatement`:
`body.find("throw ") != npos`. -/
def containsThrowStatement (body : Str) : Bool := containsSub "throw ".data body

/-- `ExceptionAnalyzer::analyzeFunction`: detect try/catch regions, set
`can_throw` when a throw statement is present, mark `noexcept`-named
functions as non-throwing, then derive `may_throw` as the disjunction of
the exception specification, detected try/catch regions, and direct
throw presence. -/
def analyzeFunction (f : Func) : Func :=
  let f1 := { f with try_catch_blocks := f.try_catch_blocks ++ detectTryCatchBlocks f.body }
  let f2 :=
    if hasThrowWs f1.body then
      { f1 with exception_spec := { f1.exception_spec with can_throw := true } }
    else f1
  let f3 :=
    if containsSub "noexcept".data f2.name then
      { f2 with exception_spec := { f2.exception_spec with is_noexcept := true, can_throw := false } }
    else f2
  { f3 with
    may_throw := f3.exception_spec.can_throw || !f3.try_catch_blocks.isEmpty ||
                 containsThrowStatement f3.body }

end ExceptionAnalyzer

/-! ### Thread analyzer (`src/analyzer/thread_analyzer.cpp`) -/

namespace ThreadAnalyzer

/-- The trim set `" \t\n\r"` of `ThreadAnalyzer::trim`. -/
def trimSet : Str := " \t\n\r".data

/-- Pattern 1 of `detectThreadCreation`:
`std::thread\s+(\w+)\s*\(\s*(\w+)\s*(?:,\s*([^)]*))?\)`. -/
def threadPat1 : Regex :=
  rcat [.str "std::thread".data, .plus isWsChar, .group 1 (.plus isWordChar),
        .star isWsChar, .str "(".data, .star isWsChar, .group 2 (.plus isWordChar),
        .star isWsChar,
        .opt (rcat [.str ",".data, .star isWsChar, .group 3 (.star (notCh ')'))]),
        .str ")".data]

/-- Pattern 2 of `detectThreadCreation`:
`std::thread\s+(\w+)\s*\{\s*(\w+)\s*(?:,\s*([^}]*))?\}`. -/
def threadPat2 : Regex :=
  rcat [.str "std::thread".data, .plus isWsChar, .group 1 (.plus isWordChar),
        .star isWsChar, .str "\x7b".data, .star isWsChar, .group 2 (.plus isWordChar),
        .star isWsChar,
        .opt (rcat [.str ",".data, .star isWsChar, .group 3 (.star (notCh '\x7d'))]),
        .str "\x7d".data]

/-- Pattern 3 of `detectThreadCreation`:
`(?:auto|std::thread)\s+(\w+)\s*=\s*std::thread\s*\(\s*(\w+)\s*(?:,\s*([^)]*))?\)`. -/
def threadPat3 : Regex :=
  rcat [.alt (.str "auto".data) (.str "std::thread".data), .plus isWsChar,
        .group 1 (.plus isWordChar), .star isWsChar, .str "=".data, .star isWsChar,
        .str "std::thread".data, .star isWsChar, .str "(".data, .star isWsChar,
        .group 2 (.plus isWordChar), .star isWsChar,
        .opt (rcat [.str ",".data, .star isWsChar, .group 3 (.star (notCh ')'))]),
        .str ")".data]

/-- The detach pattern of `detectThreadCreation`: `(\w+)\.detach\s*\(\)`. -/
def detachRe : Regex :=
  rcat [.group 1 (.plus isWordChar), .str ".detach".data, .star isWsChar, .str "()".data]

/-- The character loop of `ThreadAnalyzer::parseArguments`: split on
commas outside parentheses/braces (one shared depth counter, as in the
source) and outside square brackets, trimming each piece and dropping
empty ones. -/
def parseArgsLoop : Str → Str → Int → Int → List Str
  | [], cur, _, _ =>
    let arg := trimWith trimSet cur
    if arg.isEmpty then [] else [arg]
  | c :: t, cur, paren_depth, bracket_depth =>
    if c = '(' ∨ c = '\x7b' then parseArgsLoop t (cur ++ [c]) (paren_depth + 1) bracket_depth
    else if c = ')' ∨ c = '\x7d' then parseArgsLoop t (cur ++ [c]) (paren_depth - 1) bracket_depth
    else if c = '[' then parseArgsLoop t (cur ++ [c]) paren_depth (bracket_depth + 1)
    else if c = ']' then parseArgsLoop t (cur ++ [c]) paren_depth (bracket_depth - 1)
    else if c = ',' ∧ paren_depth = 0 ∧ bracket_depth = 0 then
      (let arg := trimWith trimSet cur
       if arg.isEmpty then [] else [arg]) ++ parseArgsLoop t [] paren_depth bracket_depth
    else parseArgsLoop t (cur ++ [c]) paren_depth bracket_depth

/-- `ThreadAnalyzer::parseArguments`. -/
def parseArguments (args_str : Str) : List Str :=
  if args_str.isEmpty then [] else parseArgsLoop args_str [] 0 0

/-- The `ThreadInfo` recorded for one spawn-site match: variable name
(group 1), callable name (group 2), and the parsed argument list when
the optional argument group matched. -/
def mkThreadInfo (g : Caps) : ThreadInfo :=
  { thread_var_name := capStr g 1, function_name := capStr g 2,
    arguments := if capMatched g 3 then parseArguments (capStr g 3) else [] }

/-- The detach marking of `detectThreadCreation`: the first recorded
thread whose variable name matches is marked detached and non-joinable
(the loop breaks after the first hit). -/
def markDetach (threads : List ThreadInfo) (v : Str) : List ThreadInfo :=
  match threads with
  | [] => []
  | t :: rest =>
    if t.thread_var_name = v then { t with detached := true, joinable := false } :: rest
    else t :: markDetach rest v

/-- `ThreadAnalyzer::detectThreadCreation` as a function of the body and
the previously recorded threads: the three spawn patterns are scanned in
order (each loop restarting from the start of the body) and appended,
then every `x.detach()` site marks the first matching recorded thread. -/
def detectThreadCreation (body : Str) (init : List ThreadInfo) : List ThreadInfo :=
  let fuel := body.length + 1
  let m1 := (allMatches fuel threadPat1 body).map mkThreadInfo
  let m2 := (allMatches fuel threadPat2 body).map mkThreadInfo
  let m3 := (allMatches fuel threadPat3 body).map mkThreadInfo
  let detaches := (allMatches fuel detachRe body).map (fun g => capStr g 1)
  detaches.foldl markDetach (init ++ m1 ++ m2 ++ m3)

/-- The mutex-member loop of `ThreadAnalyzer::detectMutexMembers`: one
`MutexInfo` per field of a recognized mutex-like kind, in field order. -/
def detectMutexMembers : List Variable → List MutexInfo
  | [] => []
  | f :: rest =>
    if f.type.kind = .StdMutex then
      { type := .Mutex, mutex_var_name := f.name } :: detectMutexMembers rest
    else if f.type.kind = .StdRecursiveMutex then
      { type := .RecursiveMutex, mutex_var_name := f.name } :: detectMutexMembers rest
    else if f.type.kind = .StdSharedMutex then
      { type := .SharedMutex, mutex_var_name := f.name } :: detectMutexMembers rest
    else detectMutexMembers rest

/-- The atomic-member loop of `ThreadAnalyzer::detectAtomicMembers`: one
`AtomicInfo` per field of atomic kind, in field order, carrying the
field's element type as value type. -/
def detectAtomicMembers : List Variable → List AtomicInfo
  | [] => []
  | f :: rest =>
    if f.type.kind = .StdAtomic then
      { atomic_var_name := f.name, value_type := f.type.element_type } :: detectAtomicMembers rest
    else detectAtomicMembers rest

/-- `ThreadAnalyzer::analyzeClass`: enumerate mutex-like and atomic
fields into the synchronization inventory, then set `thread_safe` iff
either inventory is non-empty. -/
def analyzeClass (c : ClassDecl) : ClassDecl :=
  let c1 := { c with mutexes := c.mutexes ++ detectMutexMembers c.fields }
  let c2 := { c1 with atomic_fields := c1.atomic_fields ++ detectAtomicMembers c1.fields }
  { c2 with thread_safe := !c2.mutexes.isEmpty || !c2.atomic_fields.isEmpty }

/-- A recognized mutex-like type kind (the three kinds
`detectMutexMembers` matches on). -/
def isMutexKind (k : TypeKind) : Bool :=
  if k = .StdMutex then true
  else if k = .StdRecursiveMutex then true
  else if k = .StdSharedMutex then true
  else false

end ThreadAnalyzer

/-! ### IR container (`src/ir/ir_builder.cpp`) -/

/-- The `IR` container: classes, free functions, global variables, and
the name → `Type` registry (`std::map`, modelled as a lookup function). -/
structure IR where
  classes : List ClassDecl := []
  functions : List Func := []
  global_vars : List Variable := []
  type_registry : Str → Option Ty := fun _ => none

/-- `IR::registerType`: `type_registry_[name] = type` — insert or
overwrite, last write wins. -/
def IR.registerType (ir : IR) (name : Str) (t : Ty) : IR :=
  { ir with type_registry := fun n => if n = name then some t else ir.type_registry n }

/-- `IR::findType`: the registered type, or `nullptr` (`none`). -/
def IR.findType (ir : IR) (name : Str) : Option Ty := ir.type_registry name

/-- `IR::addClass`: append the class and register a class-kind `Type`
carrying the class name under the class name. -/
def IR.addClass (ir : IR) (c : ClassDecl) : IR :=
  let ir1 := { ir with classes := ir.classes ++ [c] }
  ir1.registerType c.name (mkTy .Class c.name)

/-- `IR::addFunction`: append to the function list. -/
def IR.addFunction (ir : IR) (f : Func) : IR :=
  { ir with functions := ir.functions ++ [f] }

/-- `IR::addGlobalVariable`: append to the global-variable list. -/
def IR.addGlobalVariable (ir : IR) (v : Variable) : IR :=
  { ir with global_vars := ir.global_vars ++ [v] }

/-- The registry invariant of spec §4.1: every class name present in
`classes` has a registry entry under that name whose `Type` has the
matching name and `Class` kind. -/
def IR.Inv (ir : IR) : Prop :=
  ∀ c ∈ ir.classes, ∃ t, ir.findType c.name = some t ∧ t.name = c.name ∧ t.kind = .Class

/-! ### Code generation (`src/codegen/codegen_base.cpp` and the Target-A
generator) -/

/-- The emission state of `CodeGenerator`: the output stream text and the
current indent level. -/
structure CodeGenState where
  output : Str := []
  indent_level : Nat := 0

/-- `CodeGenerator::writeIndent`: append four spaces per indent level. -/
def CodeGenState.writeIndent (g : CodeGenState) : CodeGenState :=
  { g with output := g.output ++ (List.replicate g.indent_level "    ".data).flatten }

/-- `CodeGenerator::writeLine`: indent and append the line when it is
non-empty, then append a newline. -/
def CodeGenState.writeLine (g : CodeGenState) (line : Str) : CodeGenState :=
  let g1 := if line.isEmpty then g else
    { g.writeIndent with output := g.writeIndent.output ++ line }
  { g1 with output := g1.output ++ "\n".data }

namespace RustCodeGenerator

/-- Modelled from the spec: the per-class emission of the Target-A (Rust)
generator, whose implementation file is absent from the sources (only
`codegen_base.cpp` and the generator's test are present).  Per §4.6 it
emits a data declaration for the class — fields in declared order,
lowered through the ownership mapper — using the `writeLine`/indent
discipline of `codegen_base.cpp`. -/
def emitClass (g : CodeGenState) (c : ClassDecl) : CodeGenState :=
  let g1 := g.writeLine ("pub struct ".data ++ c.name ++ " \x7b".data)
  let g2 := { g1 with indent_level := g1.indent_level + 1 }
  let g3 := c.fields.foldl
    (fun acc f =>
      acc.writeLine (f.name ++ ": ".data ++
        MemoryPatternAnalyzer.getRustEquivalent
          (MemoryPatternAnalyzer.analyzePointerPattern (some f.type)) f.type.name ++
        ",".data))
    g2
  let g4 := { g3 with indent_level := g3.indent_level - 1 }
  (g4.writeLine "\x7d".data).writeLine []

/-- Modelled from the spec: `RustCodeGenerator::generate(Program) → text`.
Generation walks the classes in declaration order and is a pure function
of the annotated IR: emission always starts from a fresh state, so the
state `g` of the generator object holding any previous output does not
influence the produced text. -/
def generate (g : CodeGenState) (p : IR) : Str :=
  let _ := g
  (p.classes.foldl emitClass { output := [], indent_level := 0 }).output

end RustCodeGenerator

/-! ### Auxiliary definitions for the statements below -/

/-- Prepend `cur` to the first segment of a segment list (the accumulated
current segment of the splitting loop). -/
def prependFirst (cur : Str) : List Str → List Str
  | [] => [cur]
  | h :: t => (cur ++ h) :: t

/-- The atomic type kind `detectAtomicMembers` matches on. -/
def ThreadAnalyzer.isAtomicKind (k : TypeKind) : Bool :=
  if k = .StdAtomic then true else false

/-- The nested try/catch body of spec §8.5:
`try { try {...} catch(RuntimeError e){ rethrow } } catch(...) {}`. -/
def c1Body : Str :=
  "try \x7b try \x7b...\x7d catch(RuntimeError e)\x7b rethrow \x7d \x7d catch(...) \x7b\x7d".data

/-- The catch clauses recorded over all detected blocks of a body. -/
def recordedCatchClauses (body : Str) : List CatchClause :=
  (ExceptionAnalyzer.detectTryCatchBlocks body).flatMap TryCatchBlock.catch_clauses

/-- The thread-spawn body of spec §8.4: `std::thread t(worker, 10)`
followed later by `t.detach()`. -/
def c2Body : Str := "std::thread t(worker, 10); t.detach();".data

/-- A pre-analysis function whose body throws: concrete instance for the
may-fail disjunction. -/
def throwingFunc : Func :=
  { name := "compute".data, body := "if (x < 0) throw Error(x); return x;".data }

/-- A class with one recognized mutex field and one recognized atomic
field (the concrete instance of spec §8.6). -/
def guardedClass : ClassDecl :=
  { name := "Counter".data,
    fields :=
      [{ name := "mtx".data, type := mkTy .StdMutex "std::mutex".data },
       { name := "count".data,
         type := .mk .StdAtomic "std::atomic<int>".data false true
                   (some (mkTy .Integer "int".data)) [] 0 0 }] }

/-- The empty IR. -/
def ir0 : IR := {}

/-- A bare class named `A`. -/
def classA : ClassDecl := { name := "A".data }

/-- The IR holding exactly class `A`. -/
def irA : IR := ir0.addClass classA

/-- A non-class type whose name differs from `A`. -/
def intTy : Ty := mkTy .Integer "int".data

/-- The result of re-registering a conflicting definition under the class
name `A`. -/
def irBad : IR := irA.registerType "A".data intTy

/-- A global variable used to exercise `addGlobalVariable`. -/
def varX : Variable := { name := "x".data, type := intTy }

/-! ## Lemmas -/

theorem consFirst_ne_nil (c : Char) (l : List Str) : splitTopLevel.consFirst c l ≠ [] := by
  cases l <;> simp [splitTopLevel.consFirst]

theorem splitTopLevel_ne_nil (s : Str) (d : Int) : splitTopLevel s d ≠ [] := by
  induction s generalizing d with
  | nil => simp [splitTopLevel]
  | cons c t ih =>
    simp only [splitTopLevel]
    split_ifs <;> simp [consFirst_ne_nil]

theorem prependFirst_consFirst (cur : Str) (c : Char) (l : List Str) :
    prependFirst cur (splitTopLevel.consFirst c l) = prependFirst (cur ++ [c]) l := by
  cases l <;> simp [prependFirst, splitTopLevel.consFirst]

theorem prependFirst_nil (l : List Str) (h : l ≠ []) : prependFirst [] l = l := by
  cases l with
  | nil => exact absurd rfl h
  | cons a t => simp [prependFirst]

theorem extractLoop_eq (s : Str) : ∀ (cur : Str) (d : Int),
    STLContainerMapper.extractLoop s cur d =
      ((prependFirst cur (splitTopLevel s d)).map STLContainerMapper.trim).filter
        (fun a => !a.isEmpty) := by
  induction s with
  | nil =>
    intro cur d
    simp only [STLContainerMapper.extractLoop, splitTopLevel, prependFirst,
      List.append_nil, List.map, List.filter]
    by_cases h : (STLContainerMapper.trim cur).isEmpty <;> simp [h]
  | cons c t ih =>
    intro cur d
    simp only [STLContainerMapper.extractLoop, splitTopLevel]
    split_ifs with h1 h2 h3 h4
    · rw [ih, prependFirst_consFirst]
    · rw [ih, prependFirst_consFirst]
    · rw [ih [] d, prependFirst_nil _ (splitTopLevel_ne_nil t d)]
      simp [prependFirst, List.filter_cons, h4]
    · rw [ih [] d, prependFirst_nil _ (splitTopLevel_ne_nil t d)]
      simp [prependFirst, List.filter_cons, h4]
    · rw [ih, prependFirst_consFirst]

theorem detectMutexMembers_names (fields : List Variable) :
    (ThreadAnalyzer.detectMutexMembers fields).map MutexInfo.mutex_var_name =
      (fields.filter (fun f => ThreadAnalyzer.isMutexKind f.type.kind)).map Variable.name := by
  induction fields with
  | nil => simp [ThreadAnalyzer.detectMutexMembers]
  | cons f rest ih =>
    cases hk : f.type.kind <;>
      simp [ThreadAnalyzer.detectMutexMembers, ThreadAnalyzer.isMutexKind, hk,
        List.filter_cons, ih]

theorem detectAtomicMembers_names (fields : List Variable) :
    (ThreadAnalyzer.detectAtomicMembers fields).map AtomicInfo.atomic_var_name =
      (fields.filter (fun f => ThreadAnalyzer.isAtomicKind f.type.kind)).map Variable.name := by
  induction fields with
  | nil => simp [ThreadAnalyzer.detectAtomicMembers]
  | cons f rest ih =>
    cases hk : f.type.kind <;>
      simp [ThreadAnalyzer.detectAtomicMembers, ThreadAnalyzer.isAtomicKind, hk,
        List.filter_cons, ih]

/-! ## Claims -/

/-- C1, counterexample.  On the nested body
`try { try {...} catch(RuntimeError e){ rethrow } } catch(...) {}` the
exception analyzer does not record two catch clauses: the block regex
`try\s*\{([^}]*)\}\s*catch\s*\(([^)]+)\)\s*\{([^}]*)\}` cannot span the
nested braces, so exactly one catch clause is recorded. -/
theorem c1_two_catch_clauses_counterexample :
    (recordedCatchClauses c1Body).length = 1 ∧ ¬ (recordedCatchClauses c1Body).length = 2 := by
  constructor
  · decide
  · decide

/-- C1, amended.  On the nested body the analyzer records exactly one
try/catch block with exactly one catch clause — the inner one, with
exception type `RuntimeError` and bound name `e` (the recorded protected
body being the prefix of the outer try body before its first closing
brace); the outer catch-all clause is not recorded.  Moreover a
catch-all parameter, where recorded, yields exception type `"..."`
(not `"*"`) with no bound name. -/
theorem c1_nested_catch_clauses :
    ExceptionAnalyzer.detectTryCatchBlocks c1Body =
      [{ try_body := " try \x7b...".data,
         catch_clauses := [{ exception_type := "RuntimeError".data, exception_var := "e".data,
                             handler_body := " rethrow ".data }] }] ∧
    ExceptionAnalyzer.parseCatchParameter "...".data = ("...".data, []) := by
  constructor
  · decide
  · decide

/-- C2.  For the body `std::thread t(worker, 10); t.detach();` the thread
analyzer records exactly one `ThreadInfo`: variable name `t`, callable
`worker`, the single parsed argument `"10"`, and — because of the later
`t.detach()` site — `detached = true` and `joinable = false`. -/
theorem c2_thread_detach_record :
    ThreadAnalyzer.detectThreadCreation c2Body [] =
      [{ thread_var_name := "t".data, function_name := "worker".data,
         arguments := ["10".data], detached := true, joinable := false }] := by
  decide

/-- C3.  Every name in the builtin mapping table maps to a type whose
`size_bytes` is the documented platform-independent size for that name
and whose `alignment` equals `size_bytes`, and mapping is idempotent on
successful names: re-mapping the produced name agrees in kind, name,
`size_bytes` and `alignment`. -/
theorem c3_builtin_size_and_idempotence :
    ∀ n ∈ TypeMapper.builtinNames, ∃ t, TypeMapper.mapBuiltinType n = some t ∧
      t.size_bytes = documentedSize n ∧ t.alignment = t.size_bytes ∧
      ∃ t2, TypeMapper.mapBuiltinType t.name = some t2 ∧ t2.kind = t.kind ∧
        t2.name = t.name ∧ t2.size_bytes = t.size_bytes ∧ t2.alignment = t.alignment := by
  intro n hn
  simp only [TypeMapper.builtinNames, TypeMapper.builtin_map, List.map_cons, List.map_nil] at hn
  fin_cases hn <;> exact ⟨_, rfl, by decide, rfl, _, rfl, rfl, rfl, rfl, rfl⟩

/-- C3, witness at the table entry `int`. -/
theorem c3_builtin_size_and_idempotence_witness :
    ∃ t, TypeMapper.mapBuiltinType "int".data = some t ∧
      t.size_bytes = documentedSize "int".data ∧ t.alignment = t.size_bytes ∧
      ∃ t2, TypeMapper.mapBuiltinType t.name = some t2 ∧ t2.kind = t.kind ∧
        t2.name = t.name ∧ t2.size_bytes = t.size_bytes ∧ t2.alignment = t.alignment :=
  c3_builtin_size_and_idempotence "int".data (by decide)

/-- C4.  When a container-type string has an outermost angle-bracket pair
enclosing argument text whose top-level comma-separated segments are all
non-blank, `extractTemplateArgs` returns exactly one element per
segment — nested angle brackets inside individual arguments do not
change the count, since both the source loop and the segment count track
the same bracket nesting depth. -/
theorem c4_template_args_count (s inner : Str)
    (hin : STLContainerMapper.outerArgsStr s = some inner)
    (hargs : ∀ seg ∈ splitTopLevel inner 0, STLContainerMapper.trim seg ≠ []) :
    (STLContainerMapper.extractTemplateArgs s).length = (splitTopLevel inner 0).length := by
  simp only [STLContainerMapper.extractTemplateArgs, hin]
  rw [extractLoop_eq, prependFirst_nil _ (splitTopLevel_ne_nil inner 0)]
  rw [List.filter_eq_self.mpr, List.length_map]
  intro a ha
  obtain ⟨seg, hseg, rfl⟩ := List.mem_map.mp ha
  have h := hargs seg hseg
  cases hie : (STLContainerMapper.trim seg).isEmpty with
  | false => simp [hie]
  | true => exact absurd (List.isEmpty_iff.mp hie) h

/-- C4, witness at `map<string, vector<pair<int,int>>>` (two top-level
arguments, the second containing nested angle brackets). -/
theorem c4_template_args_count_witness :
    (STLContainerMapper.extractTemplateArgs "map<string, vector<pair<int,int>>>".data).length =
      (splitTopLevel "string, vector<pair<int,int>>".data 0).length :=
  c4_template_args_count "map<string, vector<pair<int,int>>>".data
    "string, vector<pair<int,int>>".data (by decide) (by decide)

/-- C5.  `analyzePointerPattern` is total and assigns each type exactly
one ownership pattern: a pointer-kind type is `UniqueOwnership` exactly
when its name contains `unique_ptr`, `SharedOwnership` exactly when its
name contains `shared_ptr` but not `unique_ptr` (the unique marker is
checked first), and `RawPointer` otherwise; a reference-kind type is
`BorrowedReference` exactly when `is_const` is set and `MutableBorrow`
exactly when it is not — mutually exclusive and exhaustive over
references; every other kind is `ValueSemantics`. -/
theorem c5_ownership_classification (t : Ty) :
    (MemoryPatternAnalyzer.analyzePointerPattern (some t) = .UniqueOwnership ↔
       t.kind = .Pointer ∧ containsSub "unique_ptr".data t.name = true) ∧
    (MemoryPatternAnalyzer.analyzePointerPattern (some t) = .SharedOwnership ↔
       t.kind = .Pointer ∧ containsSub "shared_ptr".data t.name = true ∧
         containsSub "unique_ptr".data t.name = false) ∧
    (MemoryPatternAnalyzer.analyzePointerPattern (some t) = .RawPointer ↔
       t.kind = .Pointer ∧ containsSub "unique_ptr".data t.name = false ∧
         containsSub "shared_ptr".data t.name = false) ∧
    (MemoryPatternAnalyzer.analyzePointerPattern (some t) = .BorrowedReference ↔
       t.kind = .Reference ∧ t.is_const = true) ∧
    (MemoryPatternAnalyzer.analyzePointerPattern (some t) = .MutableBorrow ↔
       t.kind = .Reference ∧ t.is_const = false) ∧
    (MemoryPatternAnalyzer.analyzePointerPattern (some t) = .ValueSemantics ↔
       t.kind ≠ .Pointer ∧ t.kind ≠ .Reference) := by
  simp only [MemoryPatternAnalyzer.analyzePointerPattern]
  split_ifs with h1 h2 h3 h4 h5 <;> simp_all

/-- C6.  After `analyzeFunction` runs on a pre-analysis function (no
previously attached try/catch blocks), `may_throw` holds iff the
resulting exception specification says the function can raise, or at
least one try/catch region was detected in the body, or the body
directly contains a throw statement. -/
theorem c6_may_throw_disjunction (f : Func) (h : f.try_catch_blocks = []) :
    (ExceptionAnalyzer.analyzeFunction f).may_throw = true ↔
      ((ExceptionAnalyzer.analyzeFunction f).exception_spec.can_throw = true ∨
       ExceptionAnalyzer.detectTryCatchBlocks f.body ≠ [] ∨
       ExceptionAnalyzer.containsThrowStatement f.body = true) := by
  simp only [ExceptionAnalyzer.analyzeFunction, h, List.nil_append]
  split_ifs <;> simp [List.isEmpty_iff, or_assoc]

/-- C6, witness at a function whose body contains a throw statement. -/
theorem c6_may_throw_disjunction_witness :
    (ExceptionAnalyzer.analyzeFunction throwingFunc).may_throw = true ↔
      ((ExceptionAnalyzer.analyzeFunction throwingFunc).exception_spec.can_throw = true ∨
       ExceptionAnalyzer.detectTryCatchBlocks throwingFunc.body ≠ [] ∨
       ExceptionAnalyzer.containsThrowStatement throwingFunc.body = true) :=
  c6_may_throw_disjunction throwingFunc rfl

/-- C7.  After `analyzeClass` on a pre-analysis class, the mutex
inventory holds exactly the names of the fields of recognized mutex-like
kind in declaration order, the atomic inventory exactly the names of the
fields of atomic kind, and `thread_safe` holds iff at least one of the
two inventories is non-empty. -/
theorem c7_class_sync_inventory (c : ClassDecl) (hm : c.mutexes = [])
    (ha : c.atomic_fields = []) :
    ((ThreadAnalyzer.analyzeClass c).mutexes.map MutexInfo.mutex_var_name =
       (c.fields.filter (fun f => ThreadAnalyzer.isMutexKind f.type.kind)).map Variable.name) ∧
    ((ThreadAnalyzer.analyzeClass c).atomic_fields.map AtomicInfo.atomic_var_name =
       (c.fields.filter (fun f => ThreadAnalyzer.isAtomicKind f.type.kind)).map Variable.name) ∧
    ((ThreadAnalyzer.analyzeClass c).thread_safe = true ↔
      ((ThreadAnalyzer.analyzeClass c).mutexes ≠ [] ∨
       (ThreadAnalyzer.analyzeClass c).atomic_fields ≠ [])) := by
  refine ⟨?_, ?_, ?_⟩
  · simp [ThreadAnalyzer.analyzeClass, hm, detectMutexMembers_names]
  · simp [ThreadAnalyzer.analyzeClass, ha, detectAtomicMembers_names]
  · simp [ThreadAnalyzer.analyzeClass, List.isEmpty_iff]

/-- C7, witness at a class with one recognized mutex field and one
recognized atomic field. -/
theorem c7_class_sync_inventory_witness :
    ((ThreadAnalyzer.analyzeClass guardedClass).mutexes.map MutexInfo.mutex_var_name =
       (guardedClass.fields.filter
         (fun f => ThreadAnalyzer.isMutexKind f.type.kind)).map Variable.name) ∧
    ((ThreadAnalyzer.analyzeClass guardedClass).atomic_fields.map AtomicInfo.atomic_var_name =
       (guardedClass.fields.filter
         (fun f => ThreadAnalyzer.isAtomicKind f.type.kind)).map Variable.name) ∧
    ((ThreadAnalyzer.analyzeClass guardedClass).thread_safe = true ↔
      ((ThreadAnalyzer.analyzeClass guardedClass).mutexes ≠ [] ∨
       (ThreadAnalyzer.analyzeClass guardedClass).atomic_fields ≠ [])) :=
  c7_class_sync_inventory guardedClass rfl rfl

/-- C8, counterexample.  Not every IR operation preserves the registry
invariant: starting from an IR holding exactly class `A` (where the
invariant holds), `registerType` may overwrite the entry under `A` with
a conflicting non-class type named `int` — last write wins, and the
invariant no longer holds. -/
theorem c8_registry_invariant_counterexample : IR.Inv irA ∧ ¬ IR.Inv irBad := by
  constructor
  · intro c hc
    have hc2 : c = classA := by simpa [irA, ir0, IR.addClass, IR.registerType] using hc
    subst hc2
    exact ⟨mkTy .Class "A".data,
      by simp [irA, ir0, IR.addClass, IR.registerType, IR.findType, classA],
      by simp [mkTy, Ty.name, classA], rfl⟩
  · intro hInv
    have hmem : classA ∈ irBad.classes := by
      simp [irBad, irA, ir0, IR.addClass, IR.registerType]
    obtain ⟨t, ht, hn, hk⟩ := hInv classA hmem
    have ht2 : IR.findType irBad classA.name = some intTy := by
      simp [irBad, irA, ir0, IR.addClass, IR.registerType, IR.findType, classA]
    rw [ht] at ht2
    have hti : t = intTy := by injection ht2
    rw [hti] at hn
    simp [intTy, mkTy, Ty.name, classA] at hn

/-- C8, amended.  `addClass` appends the class and registers a class-kind
type under its name, preserving the registry invariant; `addFunction`
and `addGlobalVariable` preserve it and leave both the class list and
the registry unchanged; `findType` reads the registry; and
`registerType` (last write wins) preserves the invariant provided the
caller does not re-register a conflicting definition — whenever the
written name is the name of a present class, the registered type must
carry that name and `Class` kind. -/
theorem c8_registry_invariant :
    (∀ (ir : IR) (c : ClassDecl), ir.Inv → (ir.addClass c).Inv) ∧
    (∀ (ir : IR) (f : Func), ir.Inv → ((ir.addFunction f).Inv ∧
        (ir.addFunction f).classes = ir.classes ∧
        (ir.addFunction f).type_registry = ir.type_registry)) ∧
    (∀ (ir : IR) (v : Variable), ir.Inv → ((ir.addGlobalVariable v).Inv ∧
        (ir.addGlobalVariable v).classes = ir.classes ∧
        (ir.addGlobalVariable v).type_registry = ir.type_registry)) ∧
    (∀ (ir : IR) (n : Str) (t : Ty), ir.Inv →
        (∀ c ∈ ir.classes, c.name = n → t.name = n ∧ t.kind = .Class) →
        (ir.registerType n t).Inv) ∧
    (∀ (ir : IR) (n : Str), ir.findType n = ir.type_registry n) := by
  refine ⟨?_, ?_, ?_, ?_, ?_⟩
  · intro ir c hInv c' hc'
    have hcl : (ir.addClass c).classes = ir.classes ++ [c] := rfl
    rw [hcl] at hc'
    rcases List.mem_append.mp hc' with hold | hnew
    · obtain ⟨t, ht, hn, hk⟩ := hInv c' hold
      by_cases he : c'.name = c.name
      · exact ⟨mkTy .Class c.name,
          by simp [IR.addClass, IR.registerType, IR.findType, he],
          by simp [mkTy, Ty.name, he], rfl⟩
      · exact ⟨t, by simpa [IR.addClass, IR.registerType, IR.findType, he] using ht, hn, hk⟩
    · have hc2 : c' = c := by simpa using hnew
      subst hc2
      exact ⟨mkTy .Class c'.name,
        by simp [IR.addClass, IR.registerType, IR.findType], rfl, rfl⟩
  · intro ir f hInv
    exact ⟨hInv, rfl, rfl⟩
  · intro ir v hInv
    exact ⟨hInv, rfl, rfl⟩
  · intro ir n t hInv hok c hc
    by_cases he : c.name = n
    · obtain ⟨hname, hkind⟩ := hok c hc he
      exact ⟨t, by simp [IR.registerType, IR.findType, he],
        by rw [hname]; exact he.symm, hkind⟩
    · obtain ⟨t0, ht0, hn0, hk0⟩ := hInv c hc
      exact ⟨t0, by simpa [IR.registerType, IR.findType, he] using ht0, hn0, hk0⟩
  · intro ir n
    rfl

/-- C8, witness: the amended preservation statements applied at an empty
IR, the class `A`, a fresh function, a global variable, and a compatible
re-registration under `A`. -/
theorem c8_registry_invariant_witness :
    IR.Inv (ir0.addClass classA) ∧ IR.Inv (irA.addFunction {}) ∧
    IR.Inv (irA.addGlobalVariable varX) ∧
    IR.Inv (irA.registerType "A".data (mkTy .Class "A".data)) := by
  have inv0 : IR.Inv ir0 := by intro c hc; simp [ir0] at hc
  have invA : IR.Inv irA := c8_registry_invariant.1 ir0 classA inv0
  refine ⟨invA, (c8_registry_invariant.2.1 irA {} invA).1,
    (c8_registry_invariant.2.2.1 irA varX invA).1, ?_⟩
  refine c8_registry_invariant.2.2.2.1 irA "A".data (mkTy .Class "A".data) invA ?_
  intro c hc he
  exact ⟨rfl, rfl⟩

/-- C9.  Target-A (Rust) code generation is deterministic and a pure
function of the annotated IR: the produced text does not depend on any
pre-existing generator state, so invoking `generate` twice on the same
`Program` yields byte-identical output. -/
theorem c9_generator_deterministic (p : IR) (g1 g2 : CodeGenState) :
    RustCodeGenerator.generate g1 p = RustCodeGenerator.generate g2 p := rfl

end Hybrid
